import Mathlib

/-
Verification of the CKEditor React component (src/ckeditor.jsx): the
watchdog-adapter lifecycle protocol.  The component logic is embedded as a
small-step state machine over an explicit component state; each externally
driven occurrence (mount, props update, creation resolution or rejection, the
firing of a scheduled timeout task, unmount) is a step that transforms the
state and emits a trace of observable actions (watchdog destroy, create
issued, setData, isReadOnly assignment, the onReady / onError callback
invocations, the console warning).  The external supervisors (EditorWatchdog /
ContextWatchdog) are represented only through the contract the component
consumes: the watchdog stores the editor instance resolved by the creator and
surfaces it through its editor accessor; the context watchdog keeps a registry
of items addressed by id.
-/

namespace CKE

/-- A live editor instance handle, as seen through the engine API surface the
component uses: an identity, its current content (what getData returns) and
its read-only flag. -/
structure Editor where
  eid : Nat
  content : String
  readOnly : Bool
deriving Repr, DecidableEq

/-- A CKEditor 5 configuration object: the initialData field (possibly
undefined, modelled as none) and the rest of the caller-supplied options bag,
kept opaque. -/
structure Config where
  initialData : Option String
  rest : Nat
deriving Repr, DecidableEq

/-- The component props the lifecycle logic reads: the identity key id, the
data prop, the config prop, and the disabled prop (none models a props object
without a disabled key). -/
structure Props where
  id : Option Nat
  data : Option String
  config : Config
  disabled : Option Bool
deriving Repr, DecidableEq

/-- JavaScript truthiness of an optional string value: undefined and the empty
string are falsy, every other string is truthy (as used by the source in
expressions such as config.initialData or data or the empty string). -/
def strTruthy : Option String → Bool
  | none => false
  | some s => !(s == "")

/-- JavaScript strict equality on a possibly-undefined string value. -/
def jsStrEq : Option String → Option String → Bool
  | none, none => true
  | some a, some b => a == b
  | _, _ => false

/-- JavaScript strict equality on the possibly-undefined id prop. -/
def jsIdEq : Option Nat → Option Nat → Bool
  | none, none => true
  | some a, some b => a == b
  | _, _ => false

/-- The function _getConfig (ckeditor.jsx lines 195-208): spreads the config
prop and overrides initialData with config.initialData or data or the empty
string (JavaScript truthy-or chain); the boolean result records whether the
console warning fired, i.e. whether data and config.initialData are both
truthy. -/
def getConfig (p : Props) : Config × Bool :=
  ({ initialData := some (if strTruthy p.config.initialData then p.config.initialData.getD ""
        else if strTruthy p.data then p.data.getD "" else ""),
     rest := p.config.rest },
   strTruthy p.data && strTruthy p.config.initialData)

/-- The two supervisor backend variants. -/
inductive Variant where
  | solo
  | registry
deriving Repr, DecidableEq

/-- The component-side view of the assigned watchdog: which variant it is, and
the editor instance it currently holds.  The instance field models the
consumed supervisor contract: the watchdog stores the editor resolved by the
creator and exposes it through its editor accessor (for the registry variant,
through getItem on the shared context watchdog keyed by the adapter id). -/
structure Watchdog where
  variant : Variant
  editorInst : Option Editor
deriving Repr, DecidableEq

/-- The component instance state: the ambient React context (some when a
ContextWatchdog is provided by an enclosing CKEditorContext, none otherwise;
fixed for the component's lifetime), the current props, the watchdog field
(null before mount and after destroy), and the number of setTimeout onReady
tasks scheduled but not yet fired. -/
structure CompState where
  ctx : Option Nat
  props : Props
  watchdog : Option Watchdog
  pendingReady : Nat
deriving Repr, DecidableEq

/-- The public editor getter (lines 32-38): null when no watchdog is assigned,
otherwise the watchdog's current editor instance. -/
def editorAccessor (s : CompState) : Option Editor :=
  match s.watchdog with
  | none => none
  | some w => w.editorInst

/-- The error phases distinguished by the onError contract. -/
inductive Phase where
  | initialization
  | runtime
deriving Repr, DecidableEq

/-- Observable actions emitted while processing one occurrence. -/
inductive Out where
  | destroyIssued
  | warned
  | createIssued (cfg : Config)
  | listenersAttached
  | setData (d : Option String)
  | setReadOnly (b : Bool)
  | onReady (h : Option Editor)
  | onErrorCb (err : Nat) (phase : Phase) (willEditorRestart : Bool)
deriving Repr, DecidableEq

/-- The function _destroyEditor (lines 161-170): returns at once when no
watchdog is assigned, otherwise issues watchdog.destroy() and clears the
reference. -/
def destroyEditor (s : CompState) : CompState × List Out :=
  match s.watchdog with
  | none => (s, [])
  | some _ => ({ s with watchdog := none }, [Out.destroyIssued])

/-- Backend selection rule of _initializeEditor: the registry adapter exactly
when the ambient context is a ContextWatchdog. -/
def variantOf : Option Nat → Variant
  | some _ => Variant.registry
  | none => Variant.solo

/-- The function _initializeEditor (lines 90-105): assigns a fresh watchdog of
the variant selected from the ambient context, registers the creator and the
error listener, and issues create with the merged configuration (emitting the
console warning first when _getConfig warns). -/
def initializeEditor (s : CompState) : CompState × List Out :=
  ({ s with watchdog := some { variant := variantOf s.ctx, editorInst := none } },
   (if (getConfig s.props).2 then [Out.warned] else []) ++ [Out.createIssued (getConfig s.props).1])

/-- The function _shouldUpdateEditor (lines 178-193), taking the previous data
prop, the live editor and the next data prop: false when the data prop did not
change, false when the editor's current content strictly equals the next data
prop, true otherwise. -/
def shouldUpdateEditor (prevData : Option String) (e : Editor) (nextData : Option String) : Bool :=
  if jsStrEq prevData nextData then false
  else if some e.content == nextData then false
  else true

/-- Replace the editor instance held by the watchdog, when one is assigned. -/
def setEditorInst (s : CompState) (e : Editor) : CompState :=
  { s with watchdog := s.watchdog.map (fun w => { w with editorInst := some e }) }

/-- shouldComponentUpdate (lines 42-63): returns false at once when the editor
accessor is null; on an id change destroys the editor and returns true;
otherwise pushes data when _shouldUpdateEditor says so, applies the disabled
prop when present, and returns false.  The result is the successor state, the
emitted trace, and the boolean returned to React. -/
def shouldComponentUpdate (s : CompState) (next : Props) : CompState × List Out × Bool :=
  match editorAccessor s with
  | none => (s, ([], false))
  | some e =>
    if jsIdEq next.id s.props.id = false then
      let d := destroyEditor s
      (d.1, (d.2, true))
    else
      let upd := shouldUpdateEditor s.props.data e next.data
      let e1 := if upd then { e with content := next.data.getD "" } else e
      let t1 : List Out := if upd then [Out.setData next.data] else []
      let e2 := match next.disabled with
        | some b => { e1 with readOnly := b }
        | none => e1
      let t2 : List Out := match next.disabled with
        | some b => [Out.setReadOnly b]
        | none => []
      (setEditorInst s e2, (t1 ++ t2, false))

/-- One React props update delivered to the component: shouldComponentUpdate
runs against the old props; React then commits the next props, and calls
componentDidUpdate (line 71, which re-runs _initializeEditor) exactly when
shouldComponentUpdate returned true. -/
def applyUpdate (s : CompState) (next : Props) : CompState × List Out :=
  let r := shouldComponentUpdate s next
  let s2 := { r.1 with props := next }
  if r.2.2 then
    let i := initializeEditor s2
    (i.1, r.2.1 ++ i.2)
  else (s2, r.2.1)

/-- The disabled-prop application done inside the _createEditor then-block
(lines 117-119). -/
def withDisabled (p : Props) (e : Editor) : Editor :=
  match p.disabled with
  | some b => { e with readOnly := b }
  | none => e

/-- Resolution of a creation: the _createEditor then-block (lines 114-156)
runs — applies the disabled prop, attaches the three forwarding listeners and
schedules one setTimeout onReady task — and the watchdog stores the resolved
editor instance (the consumed supervisor contract).  No callback is invoked
synchronously: onReady only fires later, when the scheduled task runs. -/
def createSuccess (s : CompState) (e : Editor) : CompState × List Out :=
  ({ s with
      watchdog := s.watchdog.map (fun w => { w with editorInst := some (withDisabled s.props e) }),
      pendingReady := s.pendingReady + 1 },
   [Out.listenersAttached])

/-- Rejection of a creation: the catch handler on watchdog.create (line 104)
invokes onError with the error and phase initialization, willEditorRestart
false.  The component state is untouched. -/
def createFailure (s : CompState) (err : Nat) : CompState × List Out :=
  (s, [Out.onErrorCb err Phase.initialization false])

/-- A runtime error event forwarded by the watchdog error listener (lines
99-101): onError fires with phase runtime and the causesRestart flag. -/
def runtimeError (s : CompState) (err : Nat) (causesRestart : Bool) : CompState × List Out :=
  (s, [Out.onErrorCb err Phase.runtime causesRestart])

/-- One scheduled setTimeout task fires (line 148): it reads the public editor
accessor at that moment and invokes onReady with it. -/
def fireDeferred (s : CompState) : CompState × List Out :=
  match s.pendingReady with
  | 0 => (s, [])
  | Nat.succ n => ({ s with pendingReady := n }, [Out.onReady (editorAccessor s)])

/-- The externally driven occurrences. -/
inductive Ev where
  | mount
  | update (next : Props)
  | createSuccess (e : Editor)
  | createFailure (err : Nat)
  | runtimeError (err : Nat) (causesRestart : Bool)
  | fireDeferred
  | unmount
deriving Repr, DecidableEq

/-- One step of the component machine. -/
def step (s : CompState) : Ev → CompState × List Out
  | Ev.mount => initializeEditor s
  | Ev.update next => applyUpdate s next
  | Ev.createSuccess e => createSuccess s e
  | Ev.createFailure err => createFailure s err
  | Ev.runtimeError err causesRestart => runtimeError s err causesRestart
  | Ev.fireDeferred => fireDeferred s
  | Ev.unmount => destroyEditor s

/-- Run a sequence of occurrences, concatenating the emitted traces. -/
def run (s : CompState) : List Ev → CompState × List Out
  | [] => (s, [])
  | ev :: rest =>
    let r1 := step s ev
    let r2 := run r1.1 rest
    (r2.1, r1.2 ++ r2.2)

/-- Recognizer for onReady invocations in a trace. -/
def isOnReady : Out → Bool
  | Out.onReady _ => true
  | _ => false

/-- Number of onReady invocations in a trace. -/
def onReadyCount (t : List Out) : Nat := (t.filter isOnReady).length

/-- Recognizer for creation-resolution occurrences. -/
def isSuccess : Ev → Bool
  | Ev.createSuccess _ => true
  | _ => false

/-- Number of successful creations in an occurrence sequence. -/
def successCount (evs : List Ev) : Nat := (evs.filter isSuccess).length

/-- Recognizer for setData pushes in a trace. -/
def isSetData : Out → Bool
  | Out.setData _ => true
  | _ => false

/-- The payload of a ContextWatchdog itemError event (line 262). -/
structure ItemErrorEvent where
  itemId : Nat
  error : Nat
  causesRestart : Bool
deriving Repr, DecidableEq

/-- The filtered listener EditorWatchdogAdapter.on registers on the context
watchdog's itemError event (lines 260-267): the adapter's callback is invoked,
with the error and the causesRestart flag, only when the event's itemId equals
the adapter's own generated id; the result is the invocation payload, none
meaning the callback was not invoked. -/
def adapterErrorHandler (adapterId : Nat) (ev : ItemErrorEvent) : Option (Nat × Bool) :=
  if ev.itemId = adapterId then some (ev.error, ev.causesRestart) else none

/-- The shared context watchdog's registry of items, keyed by adapter id. -/
abbrev Registry : Type := List (Nat × Editor)

/-- Modelled from the spec: ContextWatchdog.getItem, which may throw on a
lookup miss (spec section 6: getItem must be treated by the caller as possibly
throwing; the source's TODO on line 280 records the same).  A miss yields an
exception value, a hit yields the registered item. -/
def getItem (r : Registry) (i : Nat) : Except String Editor :=
  match List.find? (fun p => p.1 == i) r with
  | some p => Except.ok p.2
  | none => Except.error "Item with the given id was not registered."

/-- The EditorWatchdogAdapter editor getter (lines 279-286): getItem wrapped
in try/catch, any exception normalized to null. -/
def adapterEditor (r : Registry) (i : Nat) : Option Editor :=
  match getItem r i with
  | Except.ok e => some e
  | Except.error _ => none

/-- Sample props used by the concrete witnesses. -/
def sProps : Props :=
  { id := some 1, data := some "abc", config := { initialData := none, rest := 7 }, disabled := none }

/-- Sample editor instance used by the concrete witnesses. -/
def sEditor : Editor := { eid := 5, content := "abc", readOnly := false }

/-- Sample state with a live solo editor. -/
def sLive : CompState :=
  { ctx := none, props := sProps,
    watchdog := some { variant := Variant.solo, editorInst := some sEditor },
    pendingReady := 0 }

/-- Sample state with a watchdog whose creation has not resolved yet. -/
def sCreating : CompState :=
  { ctx := none, props := sProps,
    watchdog := some { variant := Variant.solo, editorInst := none },
    pendingReady := 0 }

/-- Sample state before mount: no watchdog assigned. -/
def sEmpty : CompState :=
  { ctx := none, props := sProps, watchdog := none, pendingReady := 0 }

/-- Sample next props changing only the data prop. -/
def nextData : Props := { sProps with data := some "xyz" }

/-- Sample next props changing the identity key. -/
def nextId : Props := { sProps with id := some 2 }

/-- The watchdog field, when assigned, holds the variant selected from the
ambient context. -/
def variantOk (s : CompState) : Bool :=
  match s.watchdog with
  | none => true
  | some w => w.variant == variantOf s.ctx

theorem onReadyCount_append (a b : List Out) :
    onReadyCount (a ++ b) = onReadyCount a + onReadyCount b := by
  simp [onReadyCount, List.filter_append]

theorem destroyEditor_pendingReady (s : CompState) :
    (destroyEditor s).1.pendingReady = s.pendingReady := by
  unfold destroyEditor; cases s.watchdog <;> rfl

theorem destroyEditor_ctx (s : CompState) : (destroyEditor s).1.ctx = s.ctx := by
  unfold destroyEditor; cases s.watchdog <;> rfl

theorem destroyEditor_noReady (s : CompState) : onReadyCount (destroyEditor s).2 = 0 := by
  unfold destroyEditor; cases s.watchdog <;> rfl

theorem initializeEditor_pendingReady (s : CompState) :
    (initializeEditor s).1.pendingReady = s.pendingReady := rfl

theorem initializeEditor_ctx (s : CompState) : (initializeEditor s).1.ctx = s.ctx := rfl

theorem initializeEditor_noReady (s : CompState) :
    onReadyCount (initializeEditor s).2 = 0 := by
  unfold initializeEditor
  split <;> rfl

theorem sCU_noEditor (s : CompState) (next : Props) (hacc : editorAccessor s = none) :
    shouldComponentUpdate s next = (s, ([], false)) := by
  unfold shouldComponentUpdate
  rw [hacc]

theorem sCU_idChange (s : CompState) (next : Props) (e : Editor)
    (hacc : editorAccessor s = some e) (hid : jsIdEq next.id s.props.id = false) :
    shouldComponentUpdate s next = ((destroyEditor s).1, ((destroyEditor s).2, true)) := by
  unfold shouldComponentUpdate
  rw [hacc]
  simp [hid]

theorem sCU_sameId (s : CompState) (next : Props) (e : Editor)
    (hacc : editorAccessor s = some e) (hid : jsIdEq next.id s.props.id = true) :
    shouldComponentUpdate s next =
      (setEditorInst s
        (match next.disabled with
          | some b =>
            { (if shouldUpdateEditor s.props.data e next.data then
                { e with content := next.data.getD "" } else e) with readOnly := b }
          | none =>
            (if shouldUpdateEditor s.props.data e next.data then
                { e with content := next.data.getD "" } else e)),
       ((if shouldUpdateEditor s.props.data e next.data then [Out.setData next.data] else []) ++
          (match next.disabled with
            | some b => [Out.setReadOnly b]
            | none => []),
        false)) := by
  unfold shouldComponentUpdate
  rw [hacc]
  simp [hid]

theorem sCU_pendingReady (s : CompState) (next : Props) :
    (shouldComponentUpdate s next).1.pendingReady = s.pendingReady := by
  cases hacc : editorAccessor s with
  | none => rw [sCU_noEditor s next hacc]
  | some e =>
    cases hid : jsIdEq next.id s.props.id with
    | false => rw [sCU_idChange s next e hacc hid]; exact destroyEditor_pendingReady s
    | true => rw [sCU_sameId s next e hacc hid]; rfl

theorem sCU_ctx (s : CompState) (next : Props) :
    (shouldComponentUpdate s next).1.ctx = s.ctx := by
  cases hacc : editorAccessor s with
  | none => rw [sCU_noEditor s next hacc]
  | some e =>
    cases hid : jsIdEq next.id s.props.id with
    | false => rw [sCU_idChange s next e hacc hid]; exact destroyEditor_ctx s
    | true => rw [sCU_sameId s next e hacc hid]; rfl

theorem sCU_noReady (s : CompState) (next : Props) :
    onReadyCount (shouldComponentUpdate s next).2.1 = 0 := by
  cases hacc : editorAccessor s with
  | none => rw [sCU_noEditor s next hacc]; rfl
  | some e =>
    cases hid : jsIdEq next.id s.props.id with
    | false => rw [sCU_idChange s next e hacc hid]; exact destroyEditor_noReady s
    | true =>
      rw [sCU_sameId s next e hacc hid]
      cases next.disabled <;>
        cases shouldUpdateEditor s.props.data e next.data <;>
          simp [onReadyCount, isOnReady]

theorem stepAccounting (s : CompState) (ev : Ev) :
    onReadyCount (step s ev).2 + (step s ev).1.pendingReady
      = s.pendingReady + (if isSuccess ev then 1 else 0) := by
  cases ev with
  | mount =>
    simp [step, isSuccess, initializeEditor_noReady, initializeEditor_pendingReady]
  | update next =>
    simp only [step, applyUpdate, isSuccess, if_neg Bool.false_ne_true]
    split
    · simp [onReadyCount_append, sCU_noReady, initializeEditor_noReady,
        initializeEditor_pendingReady, sCU_pendingReady]
    · simp [sCU_noReady, sCU_pendingReady]
  | createSuccess e =>
    have h : onReadyCount [Out.listenersAttached] = 0 := rfl
    simp [step, createSuccess, isSuccess, h]
  | createFailure err =>
    have h : onReadyCount [Out.onErrorCb err Phase.initialization false] = 0 := rfl
    simp [step, createFailure, isSuccess, h]
  | runtimeError err causesRestart =>
    have h : onReadyCount [Out.onErrorCb err Phase.runtime causesRestart] = 0 := rfl
    simp [step, runtimeError, isSuccess, h]
  | fireDeferred =>
    simp only [step, fireDeferred, isSuccess]
    cases h : s.pendingReady with
    | zero => simp [onReadyCount, h]
    | succ n =>
      have h1 : onReadyCount [Out.onReady (editorAccessor s)] = 1 := rfl
      simp [h, h1]
      omega
  | unmount =>
    simp [step, isSuccess, destroyEditor_noReady, destroyEditor_pendingReady]

theorem runAccounting (evs : List Ev) : ∀ s : CompState,
    onReadyCount (run s evs).2 + (run s evs).1.pendingReady
      = s.pendingReady + successCount evs := by
  induction evs with
  | nil => intro s; simp [run, onReadyCount, successCount]
  | cons ev rest ih =>
    intro s
    have h1 := stepAccounting s ev
    have h2 := ih (step s ev).1
    simp only [run, onReadyCount_append, successCount, List.filter] at h2 ⊢
    cases hev : isSuccess ev <;> simp [hev] at h1 ⊢ <;> omega

theorem stepCtx (s : CompState) (ev : Ev) : (step s ev).1.ctx = s.ctx := by
  cases ev with
  | mount => rfl
  | update next =>
    simp only [step, applyUpdate]
    split
    · rw [initializeEditor_ctx]
      exact sCU_ctx s next
    · exact sCU_ctx s next
  | createSuccess e => rfl
  | createFailure err => rfl
  | runtimeError err causesRestart => rfl
  | fireDeferred =>
    simp only [step, fireDeferred]
    cases s.pendingReady <;> rfl
  | unmount => exact destroyEditor_ctx s

theorem runCtx (evs : List Ev) : ∀ s : CompState, (run s evs).1.ctx = s.ctx := by
  induction evs with
  | nil => intro s; rfl
  | cons ev rest ih =>
    intro s
    simp only [run]
    rw [ih (step s ev).1, stepCtx]

theorem variantOk_initializeEditor (s : CompState) :
    variantOk (initializeEditor s).1 = true := by
  simp [variantOk, initializeEditor]

theorem variantOk_destroyEditor (s : CompState) :
    variantOk (destroyEditor s).1 = true := by
  cases h : s.watchdog <;> simp [variantOk, destroyEditor, h]

theorem variantOk_setEditorInst (s : CompState) (e : Editor) :
    variantOk (setEditorInst s e) = variantOk s := by
  cases h : s.watchdog <;> simp [variantOk, setEditorInst, h]

theorem stepVariantOk (s : CompState) (ev : Ev) (hs : variantOk s = true) :
    variantOk (step s ev).1 = true := by
  cases ev with
  | mount => exact variantOk_initializeEditor s
  | update next =>
    simp only [step, applyUpdate]
    split
    · exact variantOk_initializeEditor _
    · show variantOk { (shouldComponentUpdate s next).1 with props := next } = true
      have hp : variantOk { (shouldComponentUpdate s next).1 with props := next }
          = variantOk (shouldComponentUpdate s next).1 := by
        cases h : (shouldComponentUpdate s next).1.watchdog <;> simp [variantOk, h]
      rw [hp]
      cases hacc : editorAccessor s with
      | none => rw [sCU_noEditor s next hacc]; exact hs
      | some e =>
        cases hid : jsIdEq next.id s.props.id with
        | false => rw [sCU_idChange s next e hacc hid]; exact variantOk_destroyEditor s
        | true => rw [sCU_sameId s next e hacc hid, variantOk_setEditorInst]; exact hs
  | createSuccess e =>
    simp only [step, createSuccess]
    cases h : s.watchdog with
    | none => simp [variantOk, h]
    | some w => simpa [variantOk, h] using hs
  | createFailure err => exact hs
  | runtimeError err causesRestart => exact hs
  | fireDeferred =>
    simp only [step, fireDeferred]
    cases hn : s.pendingReady with
    | zero => exact hs
    | succ n =>
      cases h : s.watchdog with
      | none => simp [variantOk, h]
      | some w => simpa [variantOk, h] using hs
  | unmount => exact variantOk_destroyEditor s

theorem runVariantOk (evs : List Ev) : ∀ s : CompState,
    variantOk s = true → variantOk (run s evs).1 = true := by
  induction evs with
  | nil => intro s hs; exact hs
  | cons ev rest ih =>
    intro s hs
    simp only [run]
    exact ih (step s ev).1 (stepVariantOk s ev hs)

/-- C1: on a successful creation, no onReady invocation is emitted
synchronously; exactly one deferred onReady task is scheduled; immediately
after the resolution, the public editor accessor already returns the resolved
live handle; when the scheduled task fires, it invokes onReady exactly once,
with exactly the handle the accessor returns at that moment, which is the
resolved live handle; and over every sequence of occurrences, the number of
onReady invocations plus the still-pending tasks equals the number of
successful creations plus the initially pending tasks (exactly once per
successful creation). -/
theorem ready_fires_once_deferred_with_live_handle
    (s : CompState) (e : Editor) (w : Watchdog) (hw : s.watchdog = some w) :
    onReadyCount (step s (Ev.createSuccess e)).2 = 0
    ∧ (step s (Ev.createSuccess e)).1.pendingReady = s.pendingReady + 1
    ∧ editorAccessor (step s (Ev.createSuccess e)).1 = some (withDisabled s.props e)
    ∧ (step (step s (Ev.createSuccess e)).1 Ev.fireDeferred).2
        = [Out.onReady (editorAccessor (step s (Ev.createSuccess e)).1)]
    ∧ (step (step s (Ev.createSuccess e)).1 Ev.fireDeferred).2
        = [Out.onReady (some (withDisabled s.props e))]
    ∧ (∀ evs : List Ev,
        onReadyCount (run s evs).2 + (run s evs).1.pendingReady
          = s.pendingReady + successCount evs) := by
  refine ⟨rfl, rfl, ?_, ?_, ?_, fun evs => runAccounting evs s⟩
  · simp [step, createSuccess, editorAccessor, hw]
  · simp [step, createSuccess, fireDeferred]
  · simp [step, createSuccess, fireDeferred, editorAccessor, hw]

/-- C1 witness: the theorem applied at a concrete creating state. -/
theorem ready_fires_once_deferred_with_live_handle_check :
    (CKE.step (CKE.step CKE.sCreating (CKE.Ev.createSuccess CKE.sEditor)).1 CKE.Ev.fireDeferred).2
      = [CKE.Out.onReady (some (CKE.withDisabled CKE.sProps CKE.sEditor))] :=
  (ready_fires_once_deferred_with_live_handle sCreating sEditor
    { variant := Variant.solo, editorInst := none } rfl).2.2.2.2.1

/-- Bridge: _shouldUpdateEditor is true exactly when the next data prop is
strictly unequal to the previous data prop and strictly unequal to the live
editor's current content. -/
theorem shouldUpdateEditor_eq (prev : Option String) (e : Editor) (nd : Option String) :
    shouldUpdateEditor prev e nd = (!(jsStrEq prev nd) && !(some e.content == nd)) := by
  unfold shouldUpdateEditor
  cases hj : jsStrEq prev nd <;> cases hb : (some e.content == nd) <;> simp [hj, hb]

/-- C2: on an update with an unchanged identity key and a live editor, the
emitted trace contains a setData push exactly when the next data prop differs
(JavaScript strict inequality) from both the previous data prop and the live
editor's current content, and in that case exactly one push occurs, carrying
the next data value. -/
theorem content_push_iff_data_differs
    (s : CompState) (next : Props) (e : Editor)
    (hacc : editorAccessor s = some e) (hid : jsIdEq next.id s.props.id = true) :
    ((step s (Ev.update next)).2).filter isSetData
      = (if jsStrEq s.props.data next.data = false ∧ (some e.content == next.data) = false
         then [Out.setData next.data] else []) := by
  simp only [step, applyUpdate]
  rw [sCU_sameId s next e hacc hid]
  simp only [Bool.false_eq_true, if_false]
  cases hd : next.disabled <;>
    cases hj : jsStrEq s.props.data next.data <;>
      cases hb : (some e.content == next.data) <;>
        simp [shouldUpdateEditor_eq, hj, hb, isSetData, List.filter_append, List.filter]

/-- C2 witness: the theorem applied at a live state with fresh data. -/
theorem content_push_iff_data_differs_check :
    ((CKE.step CKE.sLive (CKE.Ev.update CKE.nextData)).2).filter CKE.isSetData
      = [CKE.Out.setData (some "xyz")] := by
  have h := content_push_iff_data_differs sLive nextData sEditor rfl rfl
  rw [h]
  decide

/-- C3: on an update that changes the identity key while an editor is live,
the emitted trace starts with the watchdog destroy and ends with the create
issued from the configuration merged from the next props (nothing between them
but the possible configuration warning); afterwards the newly assigned
watchdog of the same ambient-selected variant holds no instance yet, so the
old handle is discarded strictly before the new create and no two live handles
coexist. -/
theorem identity_change_destroys_before_create
    (s : CompState) (next : Props) (e : Editor)
    (hacc : editorAccessor s = some e) (hid : jsIdEq next.id s.props.id = false) :
    (step s (Ev.update next)).2
      = Out.destroyIssued ::
          ((if (getConfig next).2 then [Out.warned] else []) ++
            [Out.createIssued (getConfig next).1])
    ∧ (step s (Ev.update next)).1.watchdog
        = some { variant := variantOf s.ctx, editorInst := none }
    ∧ editorAccessor (step s (Ev.update next)).1 = none := by
  cases hw : s.watchdog with
  | none => rw [editorAccessor, hw] at hacc; exact absurd hacc (by simp)
  | some w =>
    have hd : destroyEditor s = ({ s with watchdog := none }, [Out.destroyIssued]) := by
      unfold destroyEditor; rw [hw]
    refine ⟨?_, ?_, ?_⟩ <;>
      simp [step, applyUpdate, sCU_idChange s next e hacc hid, hd,
        initializeEditor, editorAccessor]

/-- C3 witness: the theorem applied at a live state with a changed id. -/
theorem identity_change_destroys_before_create_check :
    (CKE.step CKE.sLive (CKE.Ev.update CKE.nextId)).2
      = CKE.Out.destroyIssued ::
          ((if (CKE.getConfig CKE.nextId).2 then [CKE.Out.warned] else []) ++
            [CKE.Out.createIssued (CKE.getConfig CKE.nextId).1]) :=
  (identity_change_destroys_before_create sLive nextId sEditor rfl rfl).1

/-- C4: the adapter's itemError listener invokes the registered callback
exactly when the event's itemId equals the adapter's own generated id, and
then passes the event's error and causesRestart flag; an event carrying any
other id never invokes the callback. -/
theorem registry_error_routed_by_id (aid : Nat) (ev : ItemErrorEvent) :
    ((adapterErrorHandler aid ev).isSome = (ev.itemId == aid))
    ∧ (ev.itemId = aid → adapterErrorHandler aid ev = some (ev.error, ev.causesRestart))
    ∧ (ev.itemId ≠ aid → adapterErrorHandler aid ev = none) := by
  refine ⟨?_, fun h => ?_, fun h => ?_⟩ <;> unfold adapterErrorHandler
  · by_cases h : ev.itemId = aid <;> simp [h]
  · simp [h]
  · simp [h]

/-- C4 witness: the theorem applied to an event carrying the adapter's id. -/
theorem registry_error_routed_by_id_check :
    CKE.adapterErrorHandler 4 { itemId := 4, error := 9, causesRestart := true }
      = some (9, true) :=
  (registry_error_routed_by_id 4 { itemId := 4, error := 9, causesRestart := true }).2.1 rfl

/-- C5: the configuration passed to create keeps the caller-supplied options
and resolves initialData by precedence — the config's own initialData field
when set (truthy: a non-empty string, as the source's or-chain evaluates it),
else the data prop when set, else the empty string — and the non-fatal
warning fires exactly when the data prop and config.initialData are both set;
on every initialization the merged configuration is the one handed to create
and the warning appears in the trace exactly under that condition. -/
theorem config_merge_precedence_and_warning (p : Props) :
    (getConfig p).1.rest = p.config.rest
    ∧ (strTruthy p.config.initialData = true →
        (getConfig p).1.initialData = p.config.initialData)
    ∧ (strTruthy p.config.initialData = false → strTruthy p.data = true →
        (getConfig p).1.initialData = p.data)
    ∧ (strTruthy p.config.initialData = false → strTruthy p.data = false →
        (getConfig p).1.initialData = some "")
    ∧ ((getConfig p).2 = (strTruthy p.data && strTruthy p.config.initialData))
    ∧ (∀ s : CompState, s.props = p →
        Out.createIssued (getConfig p).1 ∈ (initializeEditor s).2
        ∧ (Out.warned ∈ (initializeEditor s).2
            ↔ (strTruthy p.data && strTruthy p.config.initialData) = true)) := by
  refine ⟨rfl, fun h1 => ?_, fun h1 h2 => ?_, fun h1 h2 => ?_, rfl, fun s hs => ⟨?_, ?_⟩⟩
  · cases hc : p.config.initialData with
    | none => rw [hc] at h1; exact absurd h1 (by simp [strTruthy])
    | some str => rw [hc] at h1; simp [getConfig, hc, h1]
  · cases hdta : p.data with
    | none => rw [hdta] at h2; exact absurd h2 (by simp [strTruthy])
    | some str => rw [hdta] at h2; simp [getConfig, h1, hdta, h2]
  · simp [getConfig, h1, h2]
  · simp only [initializeEditor, hs]
    split <;> simp
  · simp only [initializeEditor, hs, List.mem_append]
    have hcfg : (getConfig p).2 = (strTruthy p.data && strTruthy p.config.initialData) := rfl
    rw [hcfg]
    cases strTruthy p.data && strTruthy p.config.initialData <;> simp

/-- C5 witness: with the config field unset, the data prop is used. -/
theorem config_merge_precedence_and_warning_check :
    (CKE.getConfig CKE.sProps).1.initialData = CKE.sProps.data :=
  (config_merge_precedence_and_warning sProps).2.2.1 rfl rfl

/-- C6: when the creation promise rejects with error E while no live handle
exists, onError is invoked exactly once, with E, phase initialization, and
willEditorRestart false; no onReady is emitted or scheduled for the attempt,
and the public editor accessor still yields no live handle afterwards. -/
theorem create_rejection_reports_initialization_error
    (s : CompState) (err : Nat) (hacc : editorAccessor s = none) :
    (step s (Ev.createFailure err)).2 = [Out.onErrorCb err Phase.initialization false]
    ∧ onReadyCount (step s (Ev.createFailure err)).2 = 0
    ∧ editorAccessor (step s (Ev.createFailure err)).1 = none
    ∧ (step s (Ev.createFailure err)).1.pendingReady = s.pendingReady :=
  ⟨rfl, rfl, hacc, rfl⟩

/-- C6 witness: the theorem applied at a concrete creating state. -/
theorem create_rejection_reports_initialization_error_check :
    (CKE.step CKE.sCreating (CKE.Ev.createFailure 3)).2
      = [CKE.Out.onErrorCb 3 CKE.Phase.initialization false] :=
  (create_rejection_reports_initialization_error sCreating 3 rfl).1

/-- C7: the handle accessors are total — the registry-mode adapter getter is
exactly the registry lookup with any miss normalized to the absent value
(never a propagated exception), and the component's editor getter returns
the absent value whenever no watchdog is assigned. -/
theorem handle_accessor_never_throws (r : Registry) (i : Nat) (s : CompState) :
    adapterEditor r i = (List.find? (fun p => p.1 == i) r).map Prod.snd
    ∧ (List.find? (fun p => p.1 == i) r = none → adapterEditor r i = none)
    ∧ (s.watchdog = none → editorAccessor s = none) := by
  refine ⟨?_, fun h => ?_, fun h => ?_⟩
  · unfold adapterEditor getItem
    cases List.find? (fun p => p.1 == i) r <;> rfl
  · unfold adapterEditor getItem
    rw [h]
  · unfold editorAccessor
    rw [h]

/-- C7 witness: a lookup miss on an empty registry yields the absent value. -/
theorem handle_accessor_never_throws_check :
    CKE.adapterEditor ([] : CKE.Registry) 1 = none :=
  (handle_accessor_never_throws ([] : Registry) 1 sEmpty).2.1 rfl

/-- C8: destruction is total and idempotent — after a destroy the watchdog
reference is cleared; destroying again is a complete no-op with an empty
trace; when no watchdog was ever assigned (or it was already destroyed) the
destroy is a no-op; and unmount performs exactly this destroy. -/
theorem destroy_total_idempotent (s : CompState) :
    (destroyEditor s).1.watchdog = none
    ∧ destroyEditor (destroyEditor s).1 = ((destroyEditor s).1, [])
    ∧ (s.watchdog = none → destroyEditor s = (s, []))
    ∧ step s Ev.unmount = destroyEditor s := by
  have h1 : (destroyEditor s).1.watchdog = none := by
    cases h : s.watchdog <;> simp [destroyEditor, h]
  refine ⟨h1, ?_, fun h => ?_, rfl⟩
  · cases h : s.watchdog <;> simp [destroyEditor, h]
  · simp [destroyEditor, h]

/-- C8 witness: destroying with no watchdog assigned is a no-op. -/
theorem destroy_total_idempotent_check :
    CKE.destroyEditor CKE.sEmpty = (CKE.sEmpty, []) :=
  (destroy_total_idempotent sEmpty).2.2.1 rfl

/-- C9: initialization assigns a watchdog whose variant is the one selected
from the ambient context — registry exactly when a ContextWatchdog is
present, solo otherwise; the ambient context never changes across any run,
and every watchdog ever assigned during any run carries the variant selected
from that fixed context, so the active variant is never swapped during the
component's lifecycle. -/
theorem backend_variant_selected_once (s : CompState) (evs : List Ev) :
    (initializeEditor s).1.watchdog = some { variant := variantOf s.ctx, editorInst := none }
    ∧ ((variantOf s.ctx == Variant.registry) = s.ctx.isSome)
    ∧ (run s evs).1.ctx = s.ctx
    ∧ (variantOk s = true → variantOk (run s evs).1 = true) := by
  refine ⟨rfl, ?_, runCtx evs s, runVariantOk evs s⟩
  cases s.ctx <;> rfl

/-- C9 witness: the stability invariant holds along a concrete run. -/
theorem backend_variant_selected_once_check :
    CKE.variantOk (CKE.run CKE.sEmpty [CKE.Ev.mount, CKE.Ev.createSuccess CKE.sEditor]).1 = true :=
  (backend_variant_selected_once sEmpty [Ev.mount, Ev.createSuccess sEditor]).2.2.2 rfl

/-- C10: an update that arrives while the editor accessor yields no live
handle makes shouldComponentUpdate return false and is a complete no-op apart
from React committing the next props: empty trace — no destroy, no create, no
setData, no read-only assignment — and watchdog and pending tasks unchanged,
whatever changed in the props. -/
theorem update_without_live_editor_is_noop (s : CompState) (next : Props)
    (hacc : editorAccessor s = none) :
    (shouldComponentUpdate s next).2.2 = false
    ∧ step s (Ev.update next) = ({ s with props := next }, []) := by
  constructor
  · rw [sCU_noEditor s next hacc]
  · simp [step, applyUpdate, sCU_noEditor s next hacc]

/-- C10 witness: an id-changing update before creation resolves does
nothing. -/
theorem update_without_live_editor_is_noop_check :
    CKE.step CKE.sCreating (CKE.Ev.update CKE.nextId)
      = ({ CKE.sCreating with props := CKE.nextId }, []) :=
  (update_without_live_editor_is_noop sCreating nextId rfl).2

end CKE
